import Mathlib

/-!
Verification of the credit-decisioning core (scoring engine, policy engine,
monitoring engine, admin parameter writes) against its specification.

The Python source is shallowly embedded:
* floats become real numbers (`ℝ`) where transcendental functions occur and
  rationals (`ℚ`) where the code is purely algebraic;
* Python `round` (banker's rounding) is modelled by Mathlib `round`
  (half-up); the two agree except at exact half-way ties, which none of the
  verified properties touch;
* `datetime` values become integers (epoch-based) for the parameter store and
  reals measured in days for the scoring clock;
* the Korean rejection-reason strings are abstracted to an enumeration, since
  only their presence and count are specified;
* the PD provider (LightGBM model or statistical fallback) enters the
  decision pipeline as an explicit `pd_raw` argument, mirroring the source
  where `ScoringEngine.score` first obtains `pd_raw` and then proceeds
  deterministically.
-/

open Classical

/-- `np.clip` on reals: clamp `x` into `[lo, hi]`. -/
noncomputable def clip (x lo hi : ℝ) : ℝ := min (max x lo) hi

/-- Integer clamp, used after rounding a score (`int(np.clip(round(s), lo, hi))`). -/
def iclip (n lo hi : ℤ) : ℤ := min (max n lo) hi

/-- Python `round(x, 4)` as a real number (ties excepted, see module comment). -/
noncomputable def round4 (x : ℝ) : ℝ := ((round (x * 10000) : ℤ) : ℝ) / 10000

/-- Python `round(x, 0)` as a real number (ties excepted, see module comment). -/
noncomputable def round0 (x : ℝ) : ℝ := ((round x : ℤ) : ℝ)

/-- Scoring input (`ScoringInput` dataclass); only the fields read by the
embedded code paths are kept.  Amounts are KRW as reals, counts integers. -/
structure ScoringInput where
  product_type : String
  requested_amount : ℝ
  requested_term_months : ℕ
  applicant_type : String
  income_annual : ℝ
  cb_score : ℤ
  delinquency_count_12m : ℕ
  worst_delinquency_status : ℤ
  inquiry_count_3m : ℕ
  eq_grade : String
  irg_pd_adjustment : ℝ
  collateral_value : ℝ
  existing_monthly_payment : ℝ
  telecom_no_delinquency : ℤ
  health_insurance_paid_months_12m : ℤ
  business_duration_months : ℤ
  tax_filing_count : ℤ

/-- Log-odds accumulation of `ScoringEngine._estimate_pd_statistical`
(the statistical PD fallback), translated term by term from the source.
`math.log1p t` is `Real.log (1 + t)`. -/
noncomputable def estimate_log_odds (inp : ScoringInput) : ℝ :=
  let income_monthly := inp.income_annual / 12
  let new_monthly := inp.requested_amount * 0.005
  let total_monthly := inp.existing_monthly_payment + new_monthly
  let dsr := if 0 < income_monthly then total_monthly / income_monthly * 100 else 999
  let dsr_excess := max 0 (dsr - 40)
  let base :=
    -3.5 + ((inp.cb_score : ℝ) - 700) / 100 * (-1.8)
      + (inp.delinquency_count_12m : ℝ) * 0.6
      + (inp.worst_delinquency_status : ℝ) * 0.8
      + dsr_excess * 0.03
      + Real.log (1 + 50000 / max inp.income_annual 1) * 0.5
      + (inp.inquiry_count_3m : ℝ) * 0.3
      - (inp.telecom_no_delinquency : ℝ) * 0.3
      - ((inp.health_insurance_paid_months_12m : ℝ) / 12) * 0.4
  if inp.applicant_type = "self_employed" then
    base + 0.3 + (if inp.business_duration_months < 24 then 0.4 else 0)
      + (if inp.tax_filing_count < 2 then 0.3 else 0)
  else base

/-- `ScoringEngine._estimate_pd_statistical`: logistic transform, IRG
adjustment and clamp into `[0.001, 0.999]`. -/
noncomputable def estimate_pd_statistical (inp : ScoringInput) : ℝ :=
  clip (1 / (1 + Real.exp (-(estimate_log_odds inp))) * (1 + inp.irg_pd_adjustment))
    0.001 0.999

/-- Formula of the claim for the statistical fallback, with its
`50 000 000` constant, written for comparison with `estimate_log_odds`
(which carries the source's `50000`). -/
noncomputable def claim_log_odds (inp : ScoringInput) : ℝ :=
  let income_monthly := inp.income_annual / 12
  let new_monthly := inp.requested_amount * 0.005
  let total_monthly := inp.existing_monthly_payment + new_monthly
  let dsr := if 0 < income_monthly then total_monthly / income_monthly * 100 else 999
  let dsr_excess := max 0 (dsr - 40)
  let base :=
    -3.5 + ((inp.cb_score : ℝ) - 700) / 100 * (-1.8)
      + (inp.delinquency_count_12m : ℝ) * 0.6
      + (inp.worst_delinquency_status : ℝ) * 0.8
      + dsr_excess * 0.03
      + Real.log (1 + 50000000 / max inp.income_annual 1) * 0.5
      + (inp.inquiry_count_3m : ℝ) * 0.3
      - (inp.telecom_no_delinquency : ℝ) * 0.3
      - ((inp.health_insurance_paid_months_12m : ℝ) / 12) * 0.4
  if inp.applicant_type = "self_employed" then
    base + 0.3 + (if inp.business_duration_months < 24 then 0.4 else 0)
      + (if inp.tax_filing_count < 2 then 0.3 else 0)
  else base

/-- `ScoringEngine.pd_to_score`: 300-900 score from PD; base 600 at PD 7.2%,
40 points to double the odds. -/
noncomputable def pd_to_score (pd : ℝ) : ℤ :=
  if pd ≤ 0 ∨ 1 ≤ pd then (if 1 ≤ pd then 300 else 900)
  else
    iclip
      (round ((600 : ℝ) -
        40 / Real.log 2 * Real.log ((pd / (1 - pd)) / (0.072 / (1 - 0.072)))))
      300 900

/-- `ScoringEngine._compute_dsr`: (DSR, stress DSR) in percent, rounded to 4
decimals; the `income ≤ 0` branch returns the sentinel pair `(999, 999)`. -/
noncomputable def compute_dsr (inp : ScoringInput) (stress_rate : ℝ) : ℝ × ℝ :=
  let income_monthly := inp.income_annual / 12
  if income_monthly ≤ 0 then (999, 999)
  else
    let new_monthly := inp.requested_amount * 0.005
    let total_monthly := inp.existing_monthly_payment + new_monthly
    let stressed_rate := 0.05 + stress_rate / 100
    let stressed_monthly :=
      if 0 < inp.requested_term_months then
        inp.requested_amount * (stressed_rate / 12) /
          (1 - (1 + stressed_rate / 12) ^ (-(inp.requested_term_months : ℤ)))
      else new_monthly
    let stress_total := inp.existing_monthly_payment + stressed_monthly
    (round4 (total_monthly / income_monthly * 100),
     round4 (stress_total / income_monthly * 100))

/-- `ScoringEngine._compute_ltv`: LTV percent for mortgages with positive
collateral, otherwise 0. -/
noncomputable def compute_ltv (inp : ScoringInput) : ℝ :=
  if inp.product_type ≠ "mortgage" ∨ inp.collateral_value ≤ 0 then 0
  else round4 (inp.requested_amount / inp.collateral_value * 100)

/-- EQ-grade limit multiplier table (`eq_multiplier_map` with default 1.0). -/
noncomputable def eq_multiplier (g : String) : ℝ :=
  if g = "EQ-S" then 2.0
  else if g = "EQ-A" then 1.8
  else if g = "EQ-B" then 1.5
  else if g = "EQ-C" then 1.2
  else if g = "EQ-D" then 1.0
  else if g = "EQ-E" then 0.7
  else 1.0

/-- Rejection reasons of `_make_rejection_reasons`, abstracted from the
Korean sentences to codes (the spec constrains only their presence/count). -/
inductive RejectionReason where
  | delinquency
  | low_score
  | dsr_exceeded
  | ltv_exceeded
  | low_income
deriving DecidableEq

/-- The `reasons` list `_make_rejection_reasons` accumulates, in source
order, before truncation. -/
noncomputable def rejection_candidates (inp : ScoringInput) (score : ℤ)
    (dsr dsr_limit ltv ltv_limit : ℝ) : List RejectionReason :=
  (if 1 ≤ inp.worst_delinquency_status then [RejectionReason.delinquency] else []) ++
   (if score < 450 then [RejectionReason.low_score] else []) ++
   (if dsr_limit < dsr then [RejectionReason.dsr_exceeded] else []) ++
   (if ltv_limit < ltv then [RejectionReason.ltv_exceeded] else []) ++
   (if inp.income_annual < 12000000 then [RejectionReason.low_income] else [])

/-- `ScoringEngine._make_rejection_reasons`: candidate reasons truncated to
at most three (`reasons[:3]`). -/
noncomputable def make_rejection_reasons (inp : ScoringInput) (score : ℤ)
    (dsr dsr_limit ltv ltv_limit : ℝ) : List RejectionReason :=
  (rejection_candidates inp score dsr dsr_limit ltv ltv_limit).take 3

/-- Hard-reject disjunction of `ScoringEngine.score` (step 5 of the source):
note the LTV gate compares the computed LTV with no product guard. -/
def code_hard_reject (inp : ScoringInput) (score : ℤ) (dsr ltv dsr_limit ltv_limit : ℝ) :
    Prop :=
  2 ≤ inp.worst_delinquency_status ∨ score < 450 ∨ dsr_limit < dsr ∨
    ltv_limit < ltv ∨ inp.income_annual < 12000000

/-- Hard-reject disjunction as the claim words it, with the
`product = mortgage` guard on the LTV gate. -/
def claim_hard_reject (inp : ScoringInput) (score : ℤ) (dsr ltv dsr_limit ltv_limit : ℝ) :
    Prop :=
  2 ≤ inp.worst_delinquency_status ∨ score < 450 ∨ dsr_limit < dsr ∨
    (inp.product_type = "mortgage" ∧ ltv_limit < ltv) ∨ inp.income_annual < 12000000

/-- Scoring result (`ScoringResult` dataclass), restricted to the fields the
specification's invariants speak about.  `appeal_deadline` is measured in
days from the scoring clock `now`. -/
structure ScoringResult where
  score : ℤ
  decision : String
  approved_amount : ℝ
  rejection_reasons : List RejectionReason
  appeal_deadline : Option ℝ
  dsr : ℝ
  stress_dsr : ℝ
  ltv : ℝ

/-- `ScoringEngine.score`: the deterministic decision pipeline downstream of
the PD provider.  `pd_raw` is the provider output (model prediction or
statistical fallback); limits come from the policy engine. -/
noncomputable def score_application (pd_raw : ℝ) (inp : ScoringInput)
    (dsr_limit stress_dsr_rate ltv_limit now : ℝ) : ScoringResult :=
  let score := pd_to_score (clip (pd_raw * (1 + inp.irg_pd_adjustment)) 0.001 0.999)
  let dsr := (compute_dsr inp stress_dsr_rate).1
  let stress_dsr := (compute_dsr inp stress_dsr_rate).2
  let ltv := compute_ltv inp
  if code_hard_reject inp score dsr ltv dsr_limit ltv_limit then
    { score := score, decision := "rejected", approved_amount := round0 0,
      rejection_reasons := make_rejection_reasons inp score dsr dsr_limit ltv ltv_limit,
      appeal_deadline := some (now + 30), dsr := dsr, stress_dsr := stress_dsr, ltv := ltv }
  else if score < 530 then
    { score := score, decision := "manual_review",
      approved_amount := round0 inp.requested_amount, rejection_reasons := [],
      appeal_deadline := some (now + 30), dsr := dsr, stress_dsr := stress_dsr, ltv := ltv }
  else
    { score := score, decision := "approved",
      approved_amount := round0
        (if inp.product_type = "credit" ∨ inp.product_type = "credit_soho" then
          min inp.requested_amount (inp.income_annual * 1.5 * eq_multiplier inp.eq_grade)
        else inp.requested_amount),
      rejection_reasons := [], appeal_deadline := none,
      dsr := dsr, stress_dsr := stress_dsr, ltv := ltv }

/-- A row of the `regulation_params` table, as read by
`PolicyEngine._query_param`.  Timestamps are integers; the condition map is
an association list (`condition_json`); the stored value is abstract. -/
structure RegulationRow (V : Type) where
  param_key : String
  is_active : Bool
  effective_from : ℤ
  effective_to : Option ℤ
  condition_json : List (String × String)
  param_value : V
deriving DecidableEq

/-- The SQL `WHERE` clause of `_query_param`: key match, active, and the
effective window contains the query date. -/
def time_eligible (key : String) (eff : ℤ) {V : Type} (r : RegulationRow V) : Bool :=
  (r.param_key == key) && r.is_active && decide (r.effective_from ≤ eff) &&
    (match r.effective_to with
     | none => true
     | some t => decide (eff ≤ t))

/-- `ORDER BY effective_from DESC LIMIT 1` over a row list: the row with the
largest `effective_from` (the earlier listed row wins a tie; the store's
uniqueness constraint on `(param_key, effective_from)` rules ties out). -/
def pick_latest {V : Type} : List (RegulationRow V) → Option (RegulationRow V)
  | [] => none
  | r :: rest =>
    match pick_latest rest with
    | none => some r
    | some b => if r.effective_from < b.effective_from then some b else some r

/-- The row-level condition check of `_query_param`: every key of the
caller's `condition_match` must be present in the row's condition map with
an equal value (`row.condition_json.get(k) != v` rejects). -/
def cond_row_matches {V : Type} (condition_match : List (String × String))
    (r : RegulationRow V) : Bool :=
  condition_match.all (fun kv => r.condition_json.lookup kv.1 == some kv.2)

/-- `PolicyEngine._query_param`: select time-eligible rows, take the single
newest one, and only then apply the condition filter to that row (an empty
`condition_match` or an empty row condition skips the filter, matching the
Python truthiness guard; `None` behaves like the empty map). -/
def query_param {V : Type} (rows : List (RegulationRow V)) (key : String)
    (condition_match : List (String × String)) (eff : ℤ) : Option V :=
  match pick_latest (rows.filter (time_eligible key eff)) with
  | none => none
  | some row =>
    if condition_match ≠ [] ∧ row.condition_json ≠ [] then
      (if cond_row_matches condition_match row then some row.param_value else none)
    else some row.param_value

/-- Resolution as the claim words it: filter time-eligible rows, then retain
rows whose condition map is a subset of the caller's map, then take the
newest retained row.  Written for comparison with `query_param`. -/
def claim_resolve {V : Type} (rows : List (RegulationRow V)) (key : String)
    (condition_match : List (String × String)) (eff : ℤ) : Option V :=
  let step1 := rows.filter (time_eligible key eff)
  let step2 :=
    if condition_match = [] then step1
    else step1.filter
      (fun r => r.condition_json.all (fun kv => condition_match.lookup kv.1 == some kv.2))
  (pick_latest step2).map (fun r => r.param_value)

/-- Compiled fallback table of `PolicyEngine.get_stress_dsr_rate`
(`fallback_map` with `.get` default 0). -/
def stress_fallback (region rate_type : String) : ℚ :=
  if region = "metropolitan" ∧ rate_type = "variable" then 0.75
  else if region = "metropolitan" ∧ rate_type = "mixed_short" then 0.75
  else if region = "metropolitan" ∧ rate_type = "mixed_long" then 0.375
  else if region = "non_metropolitan" ∧ rate_type = "variable" then 1.50
  else if region = "non_metropolitan" ∧ rate_type = "mixed_short" then 1.50
  else if region = "non_metropolitan" ∧ rate_type = "mixed_long" then 0.75
  else 0

/-- `PolicyEngine.get_stress_dsr_rate`, with the store lookup abstracted to
its outcome `db_value`: fixed-rate loans return 0 before any lookup, a
stored value is returned as-is, and a missing value falls back to the
compiled table. -/
def get_stress_dsr_rate (db_value : Option ℚ) (region rate_type : String) : ℚ :=
  if rate_type = "fixed" then 0
  else
    match db_value with
    | some r => r
    | none => stress_fallback region rate_type

/-- Stored regulation parameter as written by the admin endpoint (the
audit fields the write protocol constrains). -/
structure RegulationParamRecord where
  created_by : String
  approved_by : String
  change_reason : String
  is_active : Bool
deriving DecidableEq

/-- `create_regulation_param` (admin API): the endpoint stores the row for
any authenticated risk manager; it performs no comparison between the
approver and the creator and no emptiness check on `change_reason`. -/
def create_regulation_param (creator approver reason : String) : RegulationParamRecord :=
  { created_by := creator, approved_by := approver, change_reason := reason,
    is_active := true }

/-- Linear-interpolation percentile of a sorted sample (`np.percentile`,
default method), `q` in `[0, 100]`. -/
noncomputable def percentile_sorted (sorted : List ℝ) (q : ℝ) : ℝ :=
  if sorted.length = 0 then 0
  else
    let h := q / 100 * ((sorted.length : ℝ) - 1)
    let lo := max 0 (min ⌊h⌋ ((sorted.length : ℤ) - 1))
    let hi := max 0 (min (lo + 1) ((sorted.length : ℤ) - 1))
    sorted.getD lo.toNat 0 +
      (h - (lo : ℝ)) * (sorted.getD hi.toNat 0 - sorted.getD lo.toNat 0)

/-- The inner bin edges `compute_psi` derives from the reference sample:
percentiles at `linspace(0, 100, n_bins + 1)` with both outer edges replaced
by `∓∞`; only the inner edges are material to binning, so the embedding
keeps exactly those. -/
noncomputable def percentile_inner_edges (reference : List ℝ) (n_bins : ℕ) : List ℝ :=
  (((List.range (n_bins + 1)).drop 1).dropLast).map
    (fun i => percentile_sorted (reference.insertionSort (· ≤ ·)) (100 * (i : ℝ) / n_bins))

/-- Bin index under `np.histogram` with outer edges at `∓∞`: the number of
inner edges not exceeding the sample. -/
noncomputable def bin_index (inner : List ℝ) (x : ℝ) : ℕ :=
  inner.countP (fun e => decide (e ≤ x))

/-- Histogram counts over `n_bins` bins delimited by the inner edges. -/
noncomputable def histogram_counts (inner : List ℝ) (data : List ℝ) (n_bins : ℕ) :
    List ℕ :=
  (List.range n_bins).map (fun i => (data.filter (fun x => bin_index inner x = i)).length)

/-- Laplace-smoothed bin shares of `compute_psi`:
`(count + 0.5) / (n + 0.5 · n_bins)`. -/
noncomputable def smoothed_pct (counts : List ℕ) (n : ℕ) (n_bins : ℕ) : List ℝ :=
  counts.map (fun c => ((c : ℝ) + 0.5) / ((n : ℝ) + 0.5 * (n_bins : ℝ)))

/-- The PSI sum `Σ (p_cur − p_ref) · ln(p_cur / p_ref)` over paired bin
shares. -/
noncomputable def psi_sum (ref_pct cur_pct : List ℝ) : ℝ :=
  (List.zipWith (fun p c => (c - p) * Real.log (c / p)) ref_pct cur_pct).sum

/-- `_psi_status`: traffic-light band for a PSI value. -/
noncomputable def psi_status (psi : ℝ) : String :=
  if psi < 0.10 then ("green") else if psi < 0.20 then ("yellow") else ("red")

/-- PSI result (`PSIResult`): stored value (rounded to 4 decimals) and
status (computed from the unrounded value, as in the source). -/
structure PSIResult where
  psi : ℝ
  status : String

/-- `compute_psi` (monitoring engine): empty inputs short-circuit to a green
zero; otherwise bin shares are smoothed and summed.  `bins` overrides the
percentile-derived inner edges when present. -/
noncomputable def compute_psi (reference current : List ℝ) (n_bins : ℕ)
    (bins : Option (List ℝ)) : PSIResult :=
  if reference = [] ∨ current = [] then { psi := 0, status := "green" }
  else
    let inner := bins.getD (percentile_inner_edges reference n_bins)
    let ref_pct := smoothed_pct (histogram_counts inner reference n_bins) reference.length n_bins
    let cur_pct := smoothed_pct (histogram_counts inner current n_bins) current.length n_bins
    let v := psi_sum ref_pct cur_pct
    { psi := round4 v, status := psi_status v }

/-- A borderline applicant with a zero requested amount: clean credit file,
annual income exactly at the 12,000,000 KRW floor. -/
noncomputable def inp_zero_amount : ScoringInput :=
  { product_type := "credit", requested_amount := 0, requested_term_months := 12,
    applicant_type := "individual", income_annual := 12000000, cb_score := 700,
    delinquency_count_12m := 0, worst_delinquency_status := 0, inquiry_count_3m := 0,
    eq_grade := "EQ-C", irg_pd_adjustment := 0, collateral_value := 0,
    existing_monthly_payment := 0, telecom_no_delinquency := 1,
    health_insurance_paid_months_12m := 12, business_duration_months := 0,
    tax_filing_count := 0 }

/-- An applicant with zero annual income. -/
noncomputable def inp_zero_income : ScoringInput :=
  { product_type := "credit", requested_amount := 10000000, requested_term_months := 12,
    applicant_type := "individual", income_annual := 0, cb_score := 700,
    delinquency_count_12m := 0, worst_delinquency_status := 0, inquiry_count_3m := 0,
    eq_grade := "EQ-C", irg_pd_adjustment := 0, collateral_value := 0,
    existing_monthly_payment := 0, telecom_no_delinquency := 1,
    health_insurance_paid_months_12m := 12, business_duration_months := 0,
    tax_filing_count := 0 }

/-- A typical valid applicant used to instantiate universally quantified
invariants. -/
noncomputable def inp_typical : ScoringInput :=
  { product_type := "credit", requested_amount := 10000000, requested_term_months := 24,
    applicant_type := "individual", income_annual := 48000000, cb_score := 820,
    delinquency_count_12m := 0, worst_delinquency_status := 0, inquiry_count_3m := 1,
    eq_grade := "EQ-B", irg_pd_adjustment := 0, collateral_value := 0,
    existing_monthly_payment := 200000, telecom_no_delinquency := 1,
    health_insurance_paid_months_12m := 12, business_duration_months := 0,
    tax_filing_count := 0 }

/-- Older parameter row whose condition names the metropolitan region. -/
def row_met : RegulationRow String :=
  { param_key := "k", is_active := true, effective_from := 10, effective_to := none,
    condition_json := [("region", "metropolitan")], param_value := "A" }

/-- Newer parameter row whose condition names the non-metropolitan region. -/
def row_non : RegulationRow String :=
  { param_key := "k", is_active := true, effective_from := 20, effective_to := none,
    condition_json := [("region", "non_metropolitan")], param_value := "B" }

lemma round_le_round {x y : ℝ} (h : x ≤ y) : round x ≤ round y := by
  rw [round_eq, round_eq]
  exact Int.floor_le_floor (by linarith)

lemma iclip_le_iclip {a b lo hi : ℤ} (h : a ≤ b) : iclip a lo hi ≤ iclip b lo hi :=
  min_le_min (max_le_max h le_rfl) le_rfl

lemma iclip_lower {a lo hi : ℤ} (h : lo ≤ hi) : lo ≤ iclip a lo hi :=
  le_min (le_max_right a lo) h

lemma iclip_upper {a lo hi : ℤ} : iclip a lo hi ≤ hi :=
  min_le_right _ _

lemma eq_multiplier_lb (g : String) : (0.7 : ℝ) ≤ eq_multiplier g := by
  rw [eq_multiplier]
  split_ifs <;> norm_num

/-- At the base PD of 7.2% the odds ratio is 1, so the raw score is exactly
the base score 600. -/
lemma pd_to_score_base : pd_to_score 0.072 = 600 := by
  rw [pd_to_score, if_neg (by norm_num)]
  have h1 : ((0.072 : ℝ) / (1 - 0.072)) / (0.072 / (1 - 0.072)) = 1 := by norm_num
  rw [h1, Real.log_one, mul_zero, sub_zero]
  have h2 : round ((600 : ℝ)) = 600 := by norm_num [round_eq]
  rw [h2]
  decide

lemma psi_sum_self (l : List ℝ) : psi_sum l l = 0 := by
  induction l with
  | nil => simp [psi_sum]
  | cons a t ih =>
    simp only [psi_sum, List.zipWith_cons_cons, List.sum_cons, sub_self, zero_mul, zero_add]
    exact ih

lemma pick_latest_mem {V : Type} {l : List (RegulationRow V)} {r : RegulationRow V}
    (h : pick_latest l = some r) : r ∈ l := by
  induction l with
  | nil => simp [pick_latest] at h
  | cons a rest ih =>
    rw [pick_latest] at h
    cases hrest : pick_latest rest with
    | none =>
      rw [hrest] at h
      dsimp only at h
      exact (Option.some_inj.mp h) ▸ List.mem_cons_self a rest
    | some b =>
      rw [hrest] at h
      dsimp only at h
      by_cases hlt : a.effective_from < b.effective_from
      · rw [if_pos hlt] at h
        exact List.mem_cons_of_mem a (ih (hrest.trans (congrArg some (Option.some_inj.mp h))))
      · rw [if_neg hlt] at h
        exact (Option.some_inj.mp h) ▸ List.mem_cons_self a rest

lemma pick_latest_eq {V : Type} (r : RegulationRow V) :
    ∀ l : List (RegulationRow V), r ∈ l →
      (∀ r' ∈ l, r' = r ∨ r'.effective_from < r.effective_from) →
      pick_latest l = some r := by
  intro l
  induction l with
  | nil => intro h _; simp at h
  | cons a rest ih =>
    intro hmem hmax
    rcases List.mem_cons.mp hmem with hra | hr
    · cases hrest : pick_latest rest with
      | none => rw [pick_latest, hrest, hra]
      | some b =>
        rw [pick_latest, hrest]
        dsimp only
        have hb : b ∈ rest := pick_latest_mem hrest
        rcases hmax b (List.mem_cons_of_mem a hb) with hbr | hlt
        · subst hra; subst hbr; rw [if_neg (lt_irrefl _)]
        · subst hra; rw [if_neg (not_lt.mpr hlt.le)]
    · have hrec : pick_latest rest = some r :=
        ih hr (fun r' h' => hmax r' (List.mem_cons_of_mem a h'))
      rw [pick_latest, hrec]
      dsimp only
      rcases hmax a (List.mem_cons_self a rest) with har | hlt
      · subst har; rw [if_neg (lt_irrefl _)]
      · rw [if_pos hlt]

lemma sa_score (pd_raw : ℝ) (inp : ScoringInput) (dl sr ll now : ℝ) :
    (score_application pd_raw inp dl sr ll now).score =
      pd_to_score (clip (pd_raw * (1 + inp.irg_pd_adjustment)) 0.001 0.999) := by
  simp only [score_application]
  split
  · rfl
  · split <;> rfl

lemma sa_dsr (pd_raw : ℝ) (inp : ScoringInput) (dl sr ll now : ℝ) :
    (score_application pd_raw inp dl sr ll now).dsr = (compute_dsr inp sr).1 := by
  simp only [score_application]
  split
  · rfl
  · split <;> rfl

lemma sa_ltv (pd_raw : ℝ) (inp : ScoringInput) (dl sr ll now : ℝ) :
    (score_application pd_raw inp dl sr ll now).ltv = compute_ltv inp := by
  simp only [score_application]
  split
  · rfl
  · split <;> rfl

lemma sa_decision_spec (pd_raw : ℝ) (inp : ScoringInput) (dl sr ll now : ℝ) :
    ((score_application pd_raw inp dl sr ll now).decision = "rejected" ↔
      code_hard_reject inp
        (pd_to_score (clip (pd_raw * (1 + inp.irg_pd_adjustment)) 0.001 0.999))
        (compute_dsr inp sr).1 (compute_ltv inp) dl ll) ∧
    ((score_application pd_raw inp dl sr ll now).decision = "manual_review" ↔
      ¬code_hard_reject inp
        (pd_to_score (clip (pd_raw * (1 + inp.irg_pd_adjustment)) 0.001 0.999))
        (compute_dsr inp sr).1 (compute_ltv inp) dl ll ∧
      pd_to_score (clip (pd_raw * (1 + inp.irg_pd_adjustment)) 0.001 0.999) < 530) ∧
    ((score_application pd_raw inp dl sr ll now).decision = "approved" ↔
      ¬code_hard_reject inp
        (pd_to_score (clip (pd_raw * (1 + inp.irg_pd_adjustment)) 0.001 0.999))
        (compute_dsr inp sr).1 (compute_ltv inp) dl ll ∧
      530 ≤ pd_to_score (clip (pd_raw * (1 + inp.irg_pd_adjustment)) 0.001 0.999)) := by
  simp only [score_application]
  by_cases h : code_hard_reject inp
      (pd_to_score (clip (pd_raw * (1 + inp.irg_pd_adjustment)) 0.001 0.999))
      (compute_dsr inp sr).1 (compute_ltv inp) dl ll
  · simp [h]
  · by_cases h2 : pd_to_score (clip (pd_raw * (1 + inp.irg_pd_adjustment)) 0.001 0.999) < 530
    · simp [h, h2]
    · simp [h, h2]
      exact not_lt.mp h2

lemma sa_amount_spec (pd_raw : ℝ) (inp : ScoringInput) (dl sr ll now : ℝ) :
    ((score_application pd_raw inp dl sr ll now).decision = "rejected" →
      (score_application pd_raw inp dl sr ll now).approved_amount = round0 0) ∧
    ((score_application pd_raw inp dl sr ll now).decision = "manual_review" →
      (score_application pd_raw inp dl sr ll now).approved_amount =
        round0 inp.requested_amount) ∧
    ((score_application pd_raw inp dl sr ll now).decision = "approved" →
      (score_application pd_raw inp dl sr ll now).approved_amount =
        round0 (if inp.product_type = "credit" ∨ inp.product_type = "credit_soho" then
          min inp.requested_amount (inp.income_annual * 1.5 * eq_multiplier inp.eq_grade)
        else inp.requested_amount)) := by
  simp only [score_application]
  by_cases h : code_hard_reject inp
      (pd_to_score (clip (pd_raw * (1 + inp.irg_pd_adjustment)) 0.001 0.999))
      (compute_dsr inp sr).1 (compute_ltv inp) dl ll
  · simp [h]
  · by_cases h2 : pd_to_score (clip (pd_raw * (1 + inp.irg_pd_adjustment)) 0.001 0.999) < 530 <;>
      simp [h, h2]

lemma sa_rejected_fields (pd_raw : ℝ) (inp : ScoringInput) (dl sr ll now : ℝ)
    (h : code_hard_reject inp
      (pd_to_score (clip (pd_raw * (1 + inp.irg_pd_adjustment)) 0.001 0.999))
      (compute_dsr inp sr).1 (compute_ltv inp) dl ll) :
    (score_application pd_raw inp dl sr ll now).rejection_reasons =
      make_rejection_reasons inp
        (pd_to_score (clip (pd_raw * (1 + inp.irg_pd_adjustment)) 0.001 0.999))
        (compute_dsr inp sr).1 dl (compute_ltv inp) ll ∧
    (score_application pd_raw inp dl sr ll now).appeal_deadline = some (now + 30) := by
  simp [score_application, h]

lemma sa_nonrejected_reasons (pd_raw : ℝ) (inp : ScoringInput) (dl sr ll now : ℝ)
    (h : ¬code_hard_reject inp
      (pd_to_score (clip (pd_raw * (1 + inp.irg_pd_adjustment)) 0.001 0.999))
      (compute_dsr inp sr).1 (compute_ltv inp) dl ll) :
    (score_application pd_raw inp dl sr ll now).rejection_reasons = [] := by
  by_cases h2 : pd_to_score (clip (pd_raw * (1 + inp.irg_pd_adjustment)) 0.001 0.999) < 530 <;>
    simp [score_application, h, h2]

lemma gate_equiv (inp : ScoringInput) (s : ℤ) (d dl ll : ℝ) (hll : 0 ≤ ll) :
    claim_hard_reject inp s d (compute_ltv inp) dl ll ↔
      code_hard_reject inp s d (compute_ltv inp) dl ll := by
  have himp : ll < compute_ltv inp → inp.product_type = "mortgage" := by
    intro hlt
    by_contra hm
    rw [compute_ltv, if_pos (Or.inl hm)] at hlt
    linarith
  have h4 : (inp.product_type = "mortgage" ∧ ll < compute_ltv inp) ↔ ll < compute_ltv inp :=
    ⟨fun h => h.2, fun h => ⟨himp h, h⟩⟩
  rw [claim_hard_reject, code_hard_reject, h4]

lemma rejection_candidates_len_pos (inp : ScoringInput) (s : ℤ) (d l dl ll : ℝ)
    (h : code_hard_reject inp s d l dl ll) :
    0 < (rejection_candidates inp s d dl l ll).length := by
  rw [rejection_candidates]
  simp only [List.length_append]
  rcases h with h | h | h | h | h
  · have e : (if (1:ℤ) ≤ inp.worst_delinquency_status then
        [RejectionReason.delinquency] else []).length = 1 := by
      rw [if_pos (by omega)]; rfl
    omega
  · have e : (if s < 450 then [RejectionReason.low_score] else []).length = 1 := by
      rw [if_pos h]; rfl
    omega
  · have e : (if dl < d then [RejectionReason.dsr_exceeded] else []).length = 1 := by
      rw [if_pos h]; rfl
    omega
  · have e : (if ll < l then [RejectionReason.ltv_exceeded] else []).length = 1 := by
      rw [if_pos h]; rfl
    omega
  · have e : (if inp.income_annual < 12000000 then
        [RejectionReason.low_income] else []).length = 1 := by
      rw [if_pos h]; rfl
    omega

lemma make_rejection_reasons_len (inp : ScoringInput) (s : ℤ) (d l dl ll : ℝ)
    (h : code_hard_reject inp s d l dl ll) :
    1 ≤ (make_rejection_reasons inp s d dl l ll).length ∧
      (make_rejection_reasons inp s d dl l ll).length ≤ 3 := by
  have hpos := rejection_candidates_len_pos inp s d l dl ll h
  rw [make_rejection_reasons, List.length_take]
  omega

/-- C1: for every scoring input and resolved limits (LTV limit non-negative,
whole-won requested amount), the decision is `rejected` exactly when a
hard-reject gate holds (delinquency status ≥ 2, score < 450, DSR over limit,
mortgage LTV over limit, or income below 12,000,000 KRW); with no gate and
score < 530 it is `manual_review` with the full requested amount; otherwise
it is `approved`. -/
theorem score_decision_gates (pd_raw : ℝ) (inp : ScoringInput)
    (dsr_limit stress_rate ltv_limit now : ℝ) (R : ScoringResult)
    (hR : R = score_application pd_raw inp dsr_limit stress_rate ltv_limit now)
    (hltv : 0 ≤ ltv_limit) (hamt : ∃ n : ℤ, inp.requested_amount = (n : ℝ)) :
    (R.decision = "rejected" ↔
      claim_hard_reject inp R.score R.dsr R.ltv dsr_limit ltv_limit) ∧
    (R.decision = "manual_review" ↔
      ¬claim_hard_reject inp R.score R.dsr R.ltv dsr_limit ltv_limit ∧ R.score < 530) ∧
    (R.decision = "manual_review" → R.approved_amount = inp.requested_amount) ∧
    (R.decision = "approved" ↔
      ¬claim_hard_reject inp R.score R.dsr R.ltv dsr_limit ltv_limit ∧ 530 ≤ R.score) := by
  subst hR
  obtain ⟨n, hn⟩ := hamt
  rw [sa_score, sa_dsr, sa_ltv,
    gate_equiv inp _ _ dsr_limit ltv_limit hltv]
  obtain ⟨h1, h2, h3⟩ := sa_decision_spec pd_raw inp dsr_limit stress_rate ltv_limit now
  refine ⟨h1, h2, ?_, h3⟩
  intro hdec
  have ha := (sa_amount_spec pd_raw inp dsr_limit stress_rate ltv_limit now).2.1 hdec
  rw [ha, hn, round0, round_intCast]

/-- Witness for the decision-gate theorem at a concrete applicant. -/
theorem score_decision_gates_witness :
    ((score_application 0.05 inp_typical 40 0 70 0).decision = "rejected" ↔
      claim_hard_reject inp_typical
        (score_application 0.05 inp_typical 40 0 70 0).score
        (score_application 0.05 inp_typical 40 0 70 0).dsr
        (score_application 0.05 inp_typical 40 0 70 0).ltv 40 70) :=
  (score_decision_gates 0.05 inp_typical 40 0 70 0 _ rfl (by norm_num)
    ⟨10000000, by norm_num [inp_typical]⟩).1

/-- C3 (amended): every rejected result carries between 1 and 3 rejection
reasons and an appeal deadline 30 days after scoring; every approved result
carries no rejection reasons, and a positive approved amount whenever the
requested amount is a positive whole number of won. -/
theorem scoring_result_invariants (pd_raw : ℝ) (inp : ScoringInput)
    (dsr_limit stress_rate ltv_limit now : ℝ) (R : ScoringResult)
    (hR : R = score_application pd_raw inp dsr_limit stress_rate ltv_limit now) :
    (R.decision = "rejected" →
      (1 ≤ R.rejection_reasons.length ∧ R.rejection_reasons.length ≤ 3) ∧
      R.appeal_deadline = some (now + 30)) ∧
    (R.decision = "approved" →
      R.rejection_reasons = [] ∧
      (∀ n : ℤ, inp.requested_amount = (n : ℝ) → 1 ≤ n → 0 < R.approved_amount)) := by
  subst hR
  obtain ⟨hrj, hmr, hap⟩ := sa_decision_spec pd_raw inp dsr_limit stress_rate ltv_limit now
  constructor
  · intro hdec
    have hr := hrj.mp hdec
    obtain ⟨hreas, hddl⟩ := sa_rejected_fields pd_raw inp dsr_limit stress_rate ltv_limit now hr
    refine ⟨?_, hddl⟩
    rw [hreas]
    exact make_rejection_reasons_len _ _ _ _ _ _ hr
  · intro hdec
    obtain ⟨hnr, hsc⟩ := hap.mp hdec
    refine ⟨sa_nonrejected_reasons pd_raw inp dsr_limit stress_rate ltv_limit now hnr, ?_⟩
    intro n hn h1n
    have ha := (sa_amount_spec pd_raw inp dsr_limit stress_rate ltv_limit now).2.2 hdec
    rw [ha]
    have hinc : (12000000:ℝ) ≤ inp.income_annual := by
      by_contra hc
      exact hnr (Or.inr (Or.inr (Or.inr (Or.inr (not_le.mp hc)))))
    by_cases hp : inp.product_type = "credit" ∨ inp.product_type = "credit_soho"
    · rw [if_pos hp]
      have hmult := eq_multiplier_lb inp.eq_grade
      have hcap : (1:ℝ) ≤ inp.income_annual * 1.5 * eq_multiplier inp.eq_grade := by nlinarith
      have hreq : (1:ℝ) ≤ inp.requested_amount := by
        rw [hn]; exact_mod_cast h1n
      have hround : (1:ℤ) ≤ round (min inp.requested_amount
          (inp.income_annual * 1.5 * eq_multiplier inp.eq_grade)) := by
        have h := round_le_round (le_min hreq hcap)
        rwa [round_one] at h
      rw [round0]
      exact_mod_cast lt_of_lt_of_le zero_lt_one hround
    · rw [if_neg hp, hn, round0, round_intCast]
      exact_mod_cast h1n

/-- Witness for the result invariants: a zero-income applicant is hard
rejected and the rejected result satisfies the invariants. -/
theorem scoring_result_invariants_witness :
    (1 ≤ (score_application 0.072 inp_zero_income 40 0 70 0).rejection_reasons.length ∧
      (score_application 0.072 inp_zero_income 40 0 70 0).rejection_reasons.length ≤ 3) ∧
    (score_application 0.072 inp_zero_income 40 0 70 0).appeal_deadline =
      some ((0:ℝ) + 30) := by
  have hdec : (score_application 0.072 inp_zero_income 40 0 70 0).decision = "rejected" :=
    (sa_decision_spec 0.072 inp_zero_income 40 0 70 0).1.mpr
      (Or.inr (Or.inr (Or.inr (Or.inr (by norm_num [inp_zero_income])))))
  exact (scoring_result_invariants 0.072 inp_zero_income 40 0 70 0 _ rfl).1 hdec

/-- C10: rejection zeroes the approved amount, manual review passes the
requested amount through uncapped, and the EQ-grade income-multiplier cap is
applied exactly on approved credit / credit-soho applications. -/
theorem approved_amount_policy (pd_raw : ℝ) (inp : ScoringInput)
    (dsr_limit stress_rate ltv_limit now : ℝ) (R : ScoringResult)
    (hR : R = score_application pd_raw inp dsr_limit stress_rate ltv_limit now)
    (hamt : ∃ n : ℤ, inp.requested_amount = (n : ℝ)) :
    (R.decision = "rejected" → R.approved_amount = 0) ∧
    (R.decision = "manual_review" → R.approved_amount = inp.requested_amount) ∧
    (R.decision = "approved" →
      (inp.product_type = "credit" ∨ inp.product_type = "credit_soho") →
      R.approved_amount =
        round0 (min inp.requested_amount
          (inp.income_annual * 1.5 * eq_multiplier inp.eq_grade))) ∧
    (R.decision = "approved" →
      ¬(inp.product_type = "credit" ∨ inp.product_type = "credit_soho") →
      R.approved_amount = inp.requested_amount) := by
  subst hR
  obtain ⟨n, hn⟩ := hamt
  obtain ⟨ha1, ha2, ha3⟩ := sa_amount_spec pd_raw inp dsr_limit stress_rate ltv_limit now
  refine ⟨?_, ?_, ?_, ?_⟩
  · intro h
    rw [ha1 h, round0, round_zero]
    exact Int.cast_zero
  · intro h
    rw [ha2 h, hn, round0, round_intCast]
  · intro h hp
    rw [ha3 h, if_pos hp]
  · intro h hp
    rw [ha3 h, if_neg hp, hn, round0, round_intCast]

/-- Witness for the approved-amount policy: a zero-income applicant is hard
rejected and the rejected result stores a zero approved amount. -/
theorem approved_amount_policy_witness :
    (score_application 0.072 inp_zero_income 40 0 70 5).approved_amount = 0 := by
  have hdec : (score_application 0.072 inp_zero_income 40 0 70 5).decision = "rejected" :=
    (sa_decision_spec 0.072 inp_zero_income 40 0 70 5).1.mpr
      (Or.inr (Or.inr (Or.inr (Or.inr (by norm_num [inp_zero_income])))))
  exact (approved_amount_policy 0.072 inp_zero_income 40 0 70 5 _ rfl
    ⟨10000000, by norm_num [inp_zero_income]⟩).1 hdec

/-- Counterexample to C3 as stated: a clean applicant at the income floor
requesting 0 KRW is approved with an approved amount of 0, so
`approved ⇒ approved_amount > 0` fails without a positivity premise on the
requested amount.  (`pd_raw = 0.072` is the base PD, giving score 600.) -/
theorem zero_amount_approved_zero :
    (score_application 0.072 inp_zero_amount 40 0 70 0).decision = "approved" ∧
    (score_application 0.072 inp_zero_amount 40 0 70 0).approved_amount = 0 := by
  have hclip : clip (0.072 * (1 + inp_zero_amount.irg_pd_adjustment)) 0.001 0.999 = 0.072 := by
    simp only [inp_zero_amount, clip]
    norm_num
  have hs : pd_to_score (clip (0.072 * (1 + inp_zero_amount.irg_pd_adjustment)) 0.001 0.999)
      = 600 := by
    rw [hclip]; exact pd_to_score_base
  have hdsr : (compute_dsr inp_zero_amount 0).1 = 0 := by
    simp only [compute_dsr, inp_zero_amount]
    norm_num [round4]
  have hltv : compute_ltv inp_zero_amount = 0 := by
    rw [compute_ltv, if_pos (Or.inl (by simp [inp_zero_amount]))]
  have hnr : ¬code_hard_reject inp_zero_amount 600 0 0 40 70 := by
    rw [code_hard_reject]
    push_neg
    refine ⟨by norm_num [inp_zero_amount], by norm_num, by norm_num, by norm_num,
      by norm_num [inp_zero_amount]⟩
  obtain ⟨hrj, hmr, hap⟩ := sa_decision_spec 0.072 inp_zero_amount 40 0 70 0
  rw [hs, hdsr, hltv] at hap
  have hdec := hap.mpr ⟨hnr, by norm_num⟩
  refine ⟨hdec, ?_⟩
  have ha := (sa_amount_spec 0.072 inp_zero_amount 40 0 70 0).2.2 hdec
  rw [ha, if_pos (Or.inl (by simp [inp_zero_amount]))]
  have hcap : (0:ℝ) ≤ inp_zero_amount.income_annual * 1.5 * eq_multiplier inp_zero_amount.eq_grade := by
    have := eq_multiplier_lb inp_zero_amount.eq_grade
    nlinarith [show inp_zero_amount.income_annual = 12000000 from by norm_num [inp_zero_amount]]
  have hreq : inp_zero_amount.requested_amount = 0 := by norm_num [inp_zero_amount]
  rw [hreq, min_eq_left hcap, round0, round_zero]
  exact Int.cast_zero

/-- C5: on `[10⁻⁶, 1 − 10⁻⁶]` the score transform stays within `[300, 900]`
and is monotone non-increasing, and the base PD of 7.2% maps to exactly
600. -/
theorem pd_to_score_props (p q : ℝ) (hp1 : 1 / 1000000 ≤ p) (hp2 : p ≤ 1 - 1 / 1000000)
    (hq1 : 1 / 1000000 ≤ q) (hq2 : q ≤ 1 - 1 / 1000000) (hpq : p ≤ q) :
    ((300 ≤ pd_to_score p ∧ pd_to_score p ≤ 900) ∧
      (300 ≤ pd_to_score q ∧ pd_to_score q ≤ 900)) ∧
    pd_to_score q ≤ pd_to_score p ∧
    pd_to_score 0.072 = 600 := by
  have hp0 : (0:ℝ) < p := lt_of_lt_of_le (by norm_num) hp1
  have hp1' : p < 1 := lt_of_le_of_lt hp2 (by norm_num)
  have hq0 : (0:ℝ) < q := lt_of_lt_of_le (by norm_num) hq1
  have hq1' : q < 1 := lt_of_le_of_lt hq2 (by norm_num)
  have hbranch : ∀ r : ℝ, 0 < r → r < 1 →
      pd_to_score r = iclip (round ((600 : ℝ) -
        40 / Real.log 2 * Real.log ((r / (1 - r)) / (0.072 / (1 - 0.072))))) 300 900 := by
    intro r h1 h2
    rw [pd_to_score, if_neg]
    push_neg
    exact ⟨h1, h2⟩
  refine ⟨⟨?_, ?_⟩, ?_, pd_to_score_base⟩
  · rw [hbranch p hp0 hp1']
    exact ⟨iclip_lower (by norm_num), iclip_upper⟩
  · rw [hbranch q hq0 hq1']
    exact ⟨iclip_lower (by norm_num), iclip_upper⟩
  · rw [hbranch p hp0 hp1', hbranch q hq0 hq1']
    have hodds : p / (1 - p) ≤ q / (1 - q) := by
      rw [div_le_div_iff (by linarith) (by linarith)]
      nlinarith
    have hpos : (0:ℝ) < p / (1 - p) / (0.072 / (1 - 0.072)) := by
      have h1 : (0:ℝ) < p / (1 - p) := div_pos hp0 (by linarith)
      positivity
    have hdivle : p / (1 - p) / (0.072 / (1 - 0.072)) ≤
        q / (1 - q) / (0.072 / (1 - 0.072)) :=
      (div_le_div_right (by norm_num)).mpr hodds
    have hlog := Real.log_le_log hpos hdivle
    have hc : (0:ℝ) ≤ 40 / Real.log 2 :=
      div_nonneg (by norm_num) (Real.log_pos (by norm_num)).le
    have hscore : (600 : ℝ) - 40 / Real.log 2 *
        Real.log ((q / (1 - q)) / (0.072 / (1 - 0.072))) ≤
        (600 : ℝ) - 40 / Real.log 2 *
        Real.log ((p / (1 - p)) / (0.072 / (1 - 0.072))) := by
      have := mul_le_mul_of_nonneg_left hlog hc
      linarith
    exact iclip_le_iclip (round_le_round hscore)

/-- Witness for the score-transform properties at the base PD. -/
theorem pd_to_score_props_witness :
    ((300 ≤ pd_to_score 0.072 ∧ pd_to_score 0.072 ≤ 900) ∧
      (300 ≤ pd_to_score 0.072 ∧ pd_to_score 0.072 ≤ 900)) ∧
    pd_to_score 0.072 ≤ pd_to_score 0.072 ∧
    pd_to_score 0.072 = 600 :=
  pd_to_score_props 0.072 0.072 (by norm_num) (by norm_num) (by norm_num) (by norm_num)
    le_rfl

/-- C4 (amended): the statistical PD fallback computes the documented
logistic formula, with income-suppression term
`0.5 · ln(1 + 50 000 / max(annual_income, 1))` (the source constant is
50,000 KRW, not 50,000,000), and returns
`clamp(sigmoid(log_odds) · (1 + irg_adjustment), 0.001, 0.999)`. -/
theorem estimate_pd_statistical_formula (inp : ScoringInput) :
    estimate_pd_statistical inp =
      clip (1 / (1 + Real.exp (-(
        -3.5 + ((inp.cb_score : ℝ) - 700) / 100 * (-1.8)
        + 0.6 * (inp.delinquency_count_12m : ℝ)
        + 0.8 * (inp.worst_delinquency_status : ℝ)
        + 0.03 * max 0 ((if 0 < inp.income_annual / 12 then
            (inp.existing_monthly_payment + inp.requested_amount * 0.005) /
              (inp.income_annual / 12) * 100
          else 999) - 40)
        + 0.5 * Real.log (1 + 50000 / max inp.income_annual 1)
        + 0.3 * (inp.inquiry_count_3m : ℝ)
        - 0.3 * (inp.telecom_no_delinquency : ℝ)
        - 0.4 * ((inp.health_insurance_paid_months_12m : ℝ) / 12)
        + (if inp.applicant_type = "self_employed" then
            0.3 + (if inp.business_duration_months < 24 then 0.4 else 0)
              + (if inp.tax_filing_count < 2 then 0.3 else 0)
          else 0)))) * (1 + inp.irg_pd_adjustment)) 0.001 0.999 := by
  have hlo : estimate_log_odds inp =
      -3.5 + ((inp.cb_score : ℝ) - 700) / 100 * (-1.8)
        + 0.6 * (inp.delinquency_count_12m : ℝ)
        + 0.8 * (inp.worst_delinquency_status : ℝ)
        + 0.03 * max 0 ((if 0 < inp.income_annual / 12 then
            (inp.existing_monthly_payment + inp.requested_amount * 0.005) /
              (inp.income_annual / 12) * 100
          else 999) - 40)
        + 0.5 * Real.log (1 + 50000 / max inp.income_annual 1)
        + 0.3 * (inp.inquiry_count_3m : ℝ)
        - 0.3 * (inp.telecom_no_delinquency : ℝ)
        - 0.4 * ((inp.health_insurance_paid_months_12m : ℝ) / 12)
        + (if inp.applicant_type = "self_employed" then
            0.3 + (if inp.business_duration_months < 24 then 0.4 else 0)
              + (if inp.tax_filing_count < 2 then 0.3 else 0)
          else 0) := by
    simp only [estimate_log_odds]
    by_cases hse : inp.applicant_type = "self_employed" <;> simp only [hse, if_pos, if_neg,
      if_true, if_false, reduceIte] <;> ring
  rw [estimate_pd_statistical, hlo]

/-- Counterexample to C4 as stated: at a clean applicant with annual income
12,000,000 KRW the source's log-odds (constant 50,000) differ from the
claimed formula's log-odds (constant 50,000,000), because
`ln(241/240) < ln(31/6)`. -/
theorem log_odds_constant_counterexample :
    estimate_log_odds inp_zero_amount ≠ claim_log_odds inp_zero_amount := by
  have hc : estimate_log_odds inp_zero_amount =
      -4.2 + Real.log (241 / 240) * 0.5 := by
    simp only [estimate_log_odds, inp_zero_amount]
    norm_num
    rw [if_neg (by decide)]
    ring
  have hs : claim_log_odds inp_zero_amount =
      -4.2 + Real.log (31 / 6) * 0.5 := by
    simp only [claim_log_odds, inp_zero_amount]
    norm_num
    rw [if_neg (by decide)]
    ring
  have hlt : Real.log (241 / 240) < Real.log (31 / 6) :=
    Real.log_lt_log (by norm_num) (by norm_num)
  rw [hc, hs]
  intro h
  nlinarith

/-- C6 (amended): the DSR computation returns the finite sentinel pair
`(999, 999)` when annual income is non-positive; for positive income the
DSR is the payment-to-income ratio expressed in percent and rounded to 4
decimals. -/
theorem compute_dsr_formula (inp : ScoringInput) (s : ℝ) :
    (inp.income_annual ≤ 0 → compute_dsr inp s = (999, 999)) ∧
    (0 < inp.income_annual →
      (compute_dsr inp s).1 =
        round4 ((inp.existing_monthly_payment + inp.requested_amount * 0.005) /
          (inp.income_annual / 12) * 100)) := by
  constructor
  · intro h
    have h12 : inp.income_annual / 12 ≤ 0 :=
      div_nonpos_of_nonpos_of_nonneg h (by norm_num)
    rw [compute_dsr, if_pos h12]
  · intro h
    have hpos : 0 < inp.income_annual / 12 := div_pos h (by norm_num)
    rw [compute_dsr, if_neg (not_le.mpr hpos)]

/-- Witness for the DSR formula at a concrete positive-income applicant. -/
theorem compute_dsr_formula_witness :
    (compute_dsr inp_zero_amount 0).1 =
      round4 ((inp_zero_amount.existing_monthly_payment +
        inp_zero_amount.requested_amount * 0.005) /
        (inp_zero_amount.income_annual / 12) * 100) :=
  (compute_dsr_formula inp_zero_amount 0).2 (by norm_num [inp_zero_amount])

/-- Counterexample to C6 as stated: with zero income the computed DSR is the
finite value 999.0 (in particular below 1000), not positive infinity. -/
theorem zero_income_dsr_sentinel :
    (compute_dsr inp_zero_income 0).1 = 999 ∧ (compute_dsr inp_zero_income 0).1 < 1000 := by
  have h : compute_dsr inp_zero_income 0 = (999, 999) := by
    rw [compute_dsr]
    rw [if_pos (by norm_num [inp_zero_income])]
  rw [h]
  norm_num

/-- C2 (amended): parameter resolution takes the single newest time-eligible
row (largest `effective_from`) and only then applies the condition filter to
that one row: when `condition_match` is given and the row carries a
non-empty condition map, the value is returned exactly when every caller key
appears in the row's condition with an equal value, and otherwise the lookup
is absent — an older matching row is never consulted. -/
theorem query_param_newest_row {V : Type} (rows : List (RegulationRow V)) (key : String)
    (condition_match : List (String × String)) (eff : ℤ) (r : RegulationRow V)
    (hmem : r ∈ rows) (helig : time_eligible key eff r = true)
    (hmax : ∀ r' ∈ rows, time_eligible key eff r' = true →
      r' = r ∨ r'.effective_from < r.effective_from) :
    query_param rows key condition_match eff =
      if condition_match ≠ [] ∧ r.condition_json ≠ [] then
        (if cond_row_matches condition_match r then some r.param_value else none)
      else some r.param_value := by
  have h1 : r ∈ rows.filter (time_eligible key eff) :=
    List.mem_filter.mpr ⟨hmem, helig⟩
  have h2 : ∀ r' ∈ rows.filter (time_eligible key eff),
      r' = r ∨ r'.effective_from < r.effective_from := by
    intro r' h'
    obtain ⟨hm, he⟩ := List.mem_filter.mp h'
    exact hmax r' hm he
  rw [query_param, pick_latest_eq r _ h1 h2]

/-- Witness for the newest-row characterisation on a one-row store. -/
theorem query_param_newest_row_witness :
    query_param [row_met] "k" [("region", "metropolitan")] 30 =
      if ([("region", "metropolitan")] : List (String × String)) ≠ [] ∧
          row_met.condition_json ≠ [] then
        (if cond_row_matches [("region", "metropolitan")] row_met then
          some row_met.param_value else none)
      else some row_met.param_value :=
  query_param_newest_row [row_met] "k" [("region", "metropolitan")] 30 row_met
    (by simp) rfl
    (by intro r' h' _; left; simpa using h')

/-- Counterexample to C2 as stated: with an older metropolitan row and a
newer non-metropolitan row both time-eligible, a metropolitan lookup
returns absent (the newer row fails the condition check and masks the older
one), while the claim's filter-then-order algorithm returns the older
matching row's value. -/
theorem newer_mismatch_masks_older :
    query_param [row_met, row_non] "k" [("region", "metropolitan")] 30 = none ∧
    claim_resolve [row_met, row_non] "k" [("region", "metropolitan")] 30 = some ("A") := by
  constructor <;> rfl

/-- Counterexample to C7 as stated: the compiled fallback returns 0.75 for
metropolitan mixed_short and 0.375 for mixed_long, not 0.60 and 0.30 times
the metropolitan variable add-on (which would be 0.45 and 0.225). -/
theorem stress_fallback_ratio_counterexample :
    stress_fallback ("metropolitan") ("mixed_short") = 0.75 ∧
    stress_fallback ("metropolitan") ("mixed_long") = 0.375 ∧
    ¬(stress_fallback ("metropolitan") ("mixed_short") =
        0.6 * stress_fallback ("metropolitan") ("variable")) ∧
    ¬(stress_fallback ("metropolitan") ("mixed_long") =
        0.3 * stress_fallback ("metropolitan") ("variable")) := by
  refine ⟨by simp [stress_fallback], by simp [stress_fallback],
    by simp [stress_fallback]; norm_num, by simp [stress_fallback]; norm_num⟩

/-- C7 (amended): when the store yields no row, the metropolitan mixed_short
fallback equals the metropolitan variable add-on (0.75, ratio 1.0), the
metropolitan mixed_long fallback is 0.5 times it (0.375), and fixed-rate
loans always resolve to 0 percentage points. -/
theorem stress_fallback_values :
    get_stress_dsr_rate none ("metropolitan") ("mixed_short") =
      stress_fallback ("metropolitan") ("variable") ∧
    get_stress_dsr_rate none ("metropolitan") ("mixed_long") =
      0.5 * stress_fallback ("metropolitan") ("variable") ∧
    (∀ (db : Option ℚ) (region : String), get_stress_dsr_rate db region ("fixed") = 0) := by
  refine ⟨by simp [get_stress_dsr_rate, stress_fallback],
    by simp [get_stress_dsr_rate, stress_fallback]; norm_num, ?_⟩
  intro db region
  rw [get_stress_dsr_rate.eq_def, if_pos rfl]

/-- C8: evaluation of the admin write at the failing input — the endpoint
stores a parameter whose approver equals its creator and whose change
reason is empty, with no refusal path. -/
theorem create_param_stores_self_approval :
    (create_regulation_param ("alice") ("alice") ("")).approved_by =
      (create_regulation_param ("alice") ("alice") ("")).created_by ∧
    (create_regulation_param ("alice") ("alice") ("")).change_reason = "" :=
  ⟨rfl, rfl⟩

/-- C9: PSI of a non-empty sample against itself is exactly 0 with status
green, and the status bands are green below 0.10, yellow on [0.10, 0.20)
and red at or above 0.20. -/
theorem compute_psi_identity_and_bands (x : List ℝ) (n_bins : ℕ)
    (hx : x ≠ []) (hb : 1 ≤ n_bins) :
    (compute_psi x x n_bins none).psi = 0 ∧
    (compute_psi x x n_bins none).status = "green" ∧
    (∀ v : ℝ, (v < 0.10 → psi_status v = "green") ∧
      (0.10 ≤ v → v < 0.20 → psi_status v = "yellow") ∧
      (0.20 ≤ v → psi_status v = "red")) := by
  have hcond : ¬(x = [] ∨ x = []) := by simp [hx]
  refine ⟨?_, ?_, ?_⟩
  · rw [compute_psi, if_neg hcond]
    show round4 (psi_sum _ _) = 0
    rw [psi_sum_self]
    norm_num [round4]
  · rw [compute_psi, if_neg hcond]
    show psi_status (psi_sum _ _) = "green"
    rw [psi_sum_self, psi_status, if_pos (by norm_num)]
  · intro v
    refine ⟨fun h => ?_, fun h1 h2 => ?_, fun h => ?_⟩
    · rw [psi_status, if_pos h]
    · rw [psi_status, if_neg (not_lt.mpr h1), if_pos h2]
    · rw [psi_status, if_neg (not_lt.mpr (le_trans (by norm_num) h)),
        if_neg (not_lt.mpr h)]

/-- Witness for the PSI self-comparison on a singleton sample. -/
theorem compute_psi_identity_witness :
    (compute_psi [1] [1] 1 none).psi = 0 ∧
    (compute_psi [1] [1] 1 none).status = "green" :=
  ⟨(compute_psi_identity_and_bands [1] 1 (by simp) le_rfl).1,
   (compute_psi_identity_and_bands [1] 1 (by simp) le_rfl).2.1⟩
